import Mathlib

/-! autogenu-jupyter: saturation descriptor, horizon length and error-norm probe

A shallow embedding of

* `src/control_input_saturation.cpp` (class `ControlInputSaturation`), translated
  member function by member function;
* the horizon length `T_f * (1 - exp(-alpha * t))` documented at the constructor of
  `MultipleShootingCGMRES` in `src/solver/multiple_shooting_cgmres.hpp`;
* `MultipleShootingCGMRES::getErrorNorm` and `controlUpdate`, which the header only
  declares.

C++ `int` is embedded as `Int` (the descriptor performs no integer arithmetic, the
value is only stored and returned).  C++ `double` is embedded, for the descriptor, as
its IEEE-754 binary64 bit pattern, so that storing and returning a value is exact for
every value of the type, NaN and the infinities included.  The numerical formulas of
the solver are embedded over exact arithmetic (an ordered field, the real numbers for
`exp`); binary64 rounding is outside that part of the model.
-/

namespace AutoGenU

/-! ## The `double` carried by the descriptor -/

/-- An IEEE-754 binary64 value, identified with its 64-bit pattern
(bit 63 sign, bits 62..52 biased exponent, bits 51..0 fraction). -/
structure Double where
  bits : Nat
  isLt : bits < 2 ^ 64
deriving DecidableEq

namespace Double

/-- The pattern of `+0.0`, the value a C++ `double` takes when the integer literal `0`
is assigned to it. -/
def zero : Double := ⟨0, by decide⟩

/-- The pattern of `1.0` (`0x3FF0000000000000`). -/
def one : Double := ⟨0x3FF0000000000000, by decide⟩

/-- The pattern of `2.0` (`0x4000000000000000`). -/
def two : Double := ⟨0x4000000000000000, by decide⟩

/-- The pattern of `-0.0` (`0x8000000000000000`). -/
def negZero : Double := ⟨0x8000000000000000, by decide⟩

/-- The pattern of a quiet NaN (`0x7FF8000000000000`). -/
def qNaN : Double := ⟨0x7FF8000000000000, by decide⟩

/-- A value is a NaN when its exponent field is all ones and its fraction is not zero. -/
def isNaN (d : Double) : Bool :=
  (d.bits / 2 ^ 52) % 2 ^ 11 == 2047 && d.bits % 2 ^ 52 != 0

/-- Sign-magnitude key: the binary64 order on values that are not NaN is the order of
this integer (both zeros have key `0`, the infinities have the extreme keys). -/
def key (d : Double) : Int :=
  if d.bits / 2 ^ 63 = 1 then -((d.bits % 2 ^ 63 : Nat) : Int) else ((d.bits % 2 ^ 63 : Nat) : Int)

/-- The C++ comparison `a >= b` on `double`: false as soon as one side is a NaN. -/
def ge (a b : Double) : Bool :=
  !a.isNaN && !b.isNaN && decide (b.key ≤ a.key)

end Double

/-! ## `ControlInputSaturation` (src/control_input_saturation.cpp) -/

/-- The data members of `ControlInputSaturation`. -/
structure ControlInputSaturation where
  index_ : Int
  max_ : Double
  min_ : Double
  dummy_weight_ : Double
deriving DecidableEq

namespace ControlInputSaturation

/-- `ControlInputSaturation::ControlInputSaturation()`: every member is assigned the
literal `0`. -/
def default : ControlInputSaturation :=
  { index_ := 0
    max_ := Double.zero
    min_ := Double.zero
    dummy_weight_ := Double.zero }

/-- `ControlInputSaturation::ControlInputSaturation(index, max, min, dummy_weight)`. -/
def construct (index : Int) (max min dummy_weight : Double) : ControlInputSaturation :=
  { index_ := index
    max_ := max
    min_ := min
    dummy_weight_ := dummy_weight }

/-- `ControlInputSaturation::setParams`: four assignments, in the order of the source,
on the object the member function is called on. -/
def setParams (self : ControlInputSaturation) (index : Int) (max min dummy_weight : Double) :
    ControlInputSaturation :=
  let s1 := { self with index_ := index }
  let s2 := { s1 with max_ := max }
  let s3 := { s2 with min_ := min }
  { s3 with dummy_weight_ := dummy_weight }

/-- `ControlInputSaturation::index`. -/
def index (self : ControlInputSaturation) : Int := self.index_

/-- `ControlInputSaturation::max`. -/
def max (self : ControlInputSaturation) : Double := self.max_

/-- `ControlInputSaturation::min`. -/
def min (self : ControlInputSaturation) : Double := self.min_

/-- `ControlInputSaturation::weight`. -/
def weight (self : ControlInputSaturation) : Double := self.dummy_weight_

/-- The descriptors a client can obtain: by the default constructor, by the
four-argument constructor, or by `setParams` on a descriptor already obtained.  `ok`
restricts the `(max, min)` pairs the client passes; `fun _ _ => True` is no
restriction. -/
inductive Reachable (ok : Double → Double → Prop) : ControlInputSaturation → Prop
  | default : Reachable ok ControlInputSaturation.default
  | construct (index : Int) (max min dummy_weight : Double) :
      ok max min → Reachable ok (ControlInputSaturation.construct index max min dummy_weight)
  | setParams (d : ControlInputSaturation) (index : Int) (max min dummy_weight : Double) :
      Reachable ok d → ok max min → Reachable ok (d.setParams index max min dummy_weight)

end ControlInputSaturation

/-! ## Horizon length (constructor documentation of `MultipleShootingCGMRES`) -/

/-- Modelled from the spec: the function body that evaluates the horizon length is not
among the sources; the header documents it at the constructor as "The length horizon at
time t is given by T_f * (1-exp(-alpha*t))" and the spec's data model repeats the
formula.  The exponential of the C library is taken as the argument `exp`. -/
def horizon {R : Type} [One R] [Neg R] [Sub R] [Mul R] (exp : R → R) (T_f alpha t : R) : R :=
  T_f * (1 - exp (-alpha * t))

/-- Modelled from the spec: the discretization step, "discretized into `N` equal steps
of length `horizon(t)/N`" (the body that computes it is not among the sources); `N` is
the constructor argument `const int N`. -/
def horizonStep {R : Type} [One R] [Neg R] [Sub R] [Mul R] [Div R] [IntCast R]
    (exp : R → R) (T_f alpha : R) (N : Int) (t : R) : R :=
  horizon exp T_f alpha t / (N : R)

/-! ## `MultipleShootingCGMRES` (src/solver/multiple_shooting_cgmres.hpp)

The header declares the class; the bodies of its member functions are not among the
sources.  The solver is embedded over a carrier `R` of numbers of which only the
arithmetic operations are used, vectors are lists, matrices are lists of rows. -/

/-- The collaborators the solver consumes (spec sections 4.1 and 6, and the private
helper declared in the header), as pure functions. -/
structure Collaborators (R : Type) where
  /-- Integrator: `integrate(time, state, control, step)` gives the next state. -/
  integrate : R → List R → List R → R → List R
  /-- Condensing: the state and costate trajectories consistent with
  `(time, state_vec, control_input_and_constraints_seq)`. -/
  rollOut : R → List R → List R → List (List R) × List (List R)
  /-- The helper `computeErrorsForControlInputAndConstraints(time, state_vec,
  control_input_and_constraints_seq, state_mat, lambda_mat)`; the result is what the
  helper assigns to its last argument. -/
  computeErrorsForControlInputAndConstraints :
    R → List R → List R → List (List R) → List (List R) → List R
  /-- The matrix-free Krylov solver `(b, Ax, kmax)`, giving the update direction. -/
  gmres : List R → (List R → List R) → Nat → List R

/-- The data members of `MultipleShootingCGMRES` the modelled member functions read or
write: parameters, the solution trajectory `control_input_and_constraints_seq_`, and
the scratch buffers for the error sequence and the state and costate trajectories. -/
structure MultipleShootingCGMRES (R : Type) where
  dim_control_input_ : Nat
  kmax_ : Nat
  zeta_ : R
  finite_difference_step_ : R
  control_input_and_constraints_seq_ : List R
  control_input_and_constraints_error_seq_ : List R
  state_mat_ : List (List R)
  lambda_mat_ : List (List R)

section Solver

variable {R : Type} [Zero R] [Neg R] [Add R] [Sub R] [Mul R] [Div R]

/-- Modelled from the spec: the squared Euclidean norm of a vector (the linear-algebra
helpers are not among the sources), accumulated entry by entry from `0`. -/
def squaredNorm (vec : List R) : R :=
  vec.foldl (fun acc x => acc + x * x) 0

/-- Modelled from the spec: the optimality error vector `F` at `(time, state_vec, U)`
(section 4.2, step 4; no body is among the sources): condense first, that is roll out
the state and costate trajectories for that `U` and that `(time, state_vec)`, then
evaluate the per-node stationarity residual on them. -/
def optimalityError (c : Collaborators R) (time : R) (state_vec U : List R) : List R :=
  let traj := c.rollOut time state_vec U
  c.computeErrorsForControlInputAndConstraints time state_vec U traj.1 traj.2

/-- Modelled from the spec: `MultipleShootingCGMRES::getErrorNorm`, of which the header
has the declaration only ("Returns the squared norm of the errors in optimality under
the state_vec and the current solution"): it evaluates `F` of step 4 at the stored
solution and returns its squared norm, performing none of the steps 1-3, 5-6 of
`controlUpdate` and leaving the solution trajectory as it is.  The member function is
not `const`; the recomputed trajectories and the error vector are left in the scratch
buffers. -/
def getErrorNorm (c : Collaborators R) (self : MultipleShootingCGMRES R) (time : R)
    (state_vec : List R) : R × MultipleShootingCGMRES R :=
  let traj := c.rollOut time state_vec self.control_input_and_constraints_seq_
  let err := c.computeErrorsForControlInputAndConstraints time state_vec
    self.control_input_and_constraints_seq_ traj.1 traj.2
  (squaredNorm err,
   { self with
      control_input_and_constraints_error_seq_ := err
      state_mat_ := traj.1
      lambda_mat_ := traj.2 })

/-- Modelled from the spec: `MultipleShootingCGMRES::controlUpdate`, of which the
header has the declaration only; the seven steps of section 4.2.  The result is the
emitted control input and the solver after the tick. -/
def controlUpdate (c : Collaborators R) (self : MultipleShootingCGMRES R)
    (time sampling_period : R) (state_vec : List R) : List R × MultipleShootingCGMRES R :=
  let U := self.control_input_and_constraints_seq_
  let h := self.finite_difference_step_
  -- 1. predict the next-tick state from the first-node control input
  let next_state := c.integrate time state_vec (U.take self.dim_control_input_) sampling_period
  -- 2. b = -zeta * F(U) - (F_at(next_time, next_state, U) - F(U)) / sampling_period
  let traj := c.rollOut time state_vec U
  let F := c.computeErrorsForControlInputAndConstraints time state_vec U traj.1 traj.2
  let F_next := optimalityError c (time + sampling_period) next_state U
  let b := List.zipWith (fun f fn => -self.zeta_ * f - (fn - f) / sampling_period) F F_next
  -- 3. Ax(direction) = (F(U + h * direction) - F(U)) / h, on the F of step 2
  let Ax := fun direction : List R =>
    List.zipWith (fun fp f => (fp - f) / h)
      (optimalityError c time state_vec (List.zipWith (fun u d => u + h * d) U direction)) F
  -- 5. the Krylov solver gives the update direction
  let dU := c.gmres b Ax self.kmax_
  -- 6. U <- U + dU * sampling_period
  let U_new := List.zipWith (fun u d => u + d * sampling_period) U dU
  -- 7. emit the control-input sub-block of the first node
  (U_new.take self.dim_control_input_,
   { self with
      control_input_and_constraints_seq_ := U_new
      control_input_and_constraints_error_seq_ := F
      state_mat_ := traj.1
      lambda_mat_ := traj.2 })

end Solver

/-- A sample set of collaborators over the rationals, for evaluating the solver model:
the residual is the solution itself, the integrator keeps the state, the roll-out is
empty and the Krylov solver returns its right-hand side. -/
def sampleCollaborators : Collaborators ℚ where
  integrate := fun _ state _ _ => state
  rollOut := fun _ _ _ => ([], [])
  computeErrorsForControlInputAndConstraints := fun _ _ U _ _ => U
  gmres := fun b _ _ => b

/-- A sample solver state over the rationals with the solution trajectory `[3, 4]`. -/
def sampleSolver : MultipleShootingCGMRES ℚ where
  dim_control_input_ := 1
  kmax_ := 2
  zeta_ := 10
  finite_difference_step_ := 1 / 100
  control_input_and_constraints_seq_ := [3, 4]
  control_input_and_constraints_error_seq_ := []
  state_mat_ := []
  lambda_mat_ := []

/-! ## Theorems on the descriptor -/

/-- The comparison `Double.ge` on sample patterns: `2.0 >= 1.0`, not `1.0 >= 2.0`, the
two zeros compare equal, and a NaN compares false with everything, itself included. -/
theorem Double.ge_samples :
    Double.ge Double.two Double.one = true ∧
    Double.ge Double.one Double.two = false ∧
    Double.ge Double.zero Double.negZero = true ∧
    Double.ge Double.negZero Double.zero = true ∧
    Double.ge Double.qNaN Double.qNaN = false ∧
    Double.ge Double.one Double.qNaN = false := by
  decide

/-- C1: for every index, max, min and dummy weight, the descriptor built by the
four-argument constructor returns exactly these values from `index()`, `max()`, `min()`
and `weight()`. -/
theorem construct_accessors (index : Int) (max min dummy_weight : Double) :
    (ControlInputSaturation.construct index max min dummy_weight).index = index ∧
    (ControlInputSaturation.construct index max min dummy_weight).max = max ∧
    (ControlInputSaturation.construct index max min dummy_weight).min = min ∧
    (ControlInputSaturation.construct index max min dummy_weight).weight = dummy_weight :=
  ⟨rfl, rfl, rfl, rfl⟩

/-- C2: `setParams(index, max, min, dummy_weight)` on any descriptor `d` yields the
descriptor the four-argument constructor builds from the same arguments: all four
members are overwritten and nothing of `d` survives; `setParams` is a total function,
so no input is rejected. -/
theorem setParams_eq_construct (d : ControlInputSaturation) (index : Int)
    (max min dummy_weight : Double) :
    d.setParams index max min dummy_weight =
      ControlInputSaturation.construct index max min dummy_weight ∧
    (d.setParams index max min dummy_weight).index = index ∧
    (d.setParams index max min dummy_weight).max = max ∧
    (d.setParams index max min dummy_weight).min = min ∧
    (d.setParams index max min dummy_weight).weight = dummy_weight :=
  ⟨rfl, rfl, rfl, rfl, rfl⟩

/-- C3: constructing with `(index, max, min, w)` and then calling `setParams` with the
same four values leaves the descriptor unchanged, the four accessors still return
`index`, `max`, `min` and `w`, and on any descriptor `setParams` with the same arguments
twice equals `setParams` once. -/
theorem setParams_idempotent (index : Int) (max min w : Double) :
    (ControlInputSaturation.construct index max min w).setParams index max min w =
      ControlInputSaturation.construct index max min w ∧
    ((ControlInputSaturation.construct index max min w).setParams index max min w).index
      = index ∧
    ((ControlInputSaturation.construct index max min w).setParams index max min w).max
      = max ∧
    ((ControlInputSaturation.construct index max min w).setParams index max min w).min
      = min ∧
    ((ControlInputSaturation.construct index max min w).setParams index max min w).weight
      = w ∧
    ∀ d : ControlInputSaturation,
      (d.setParams index max min w).setParams index max min w =
        d.setParams index max min w :=
  ⟨rfl, rfl, rfl, rfl, rfl, fun _ => rfl⟩

/-- C4, as stated, fails: the four-argument constructor called with `max = 1.0` and
`min = 2.0` is a reachable descriptor whose `max() >= min()` is false; so is the one
`setParams` leaves behind on the default descriptor with the same arguments. -/
theorem max_ge_min_counterexample :
    ControlInputSaturation.Reachable (fun _ _ => True)
        (ControlInputSaturation.construct 0 Double.one Double.two Double.zero) ∧
      Double.ge (ControlInputSaturation.construct 0 Double.one Double.two Double.zero).max
        (ControlInputSaturation.construct 0 Double.one Double.two Double.zero).min = false ∧
    ControlInputSaturation.Reachable (fun _ _ => True)
        (ControlInputSaturation.default.setParams 0 Double.one Double.two Double.zero) ∧
      Double.ge (ControlInputSaturation.default.setParams 0 Double.one Double.two Double.zero).max
        (ControlInputSaturation.default.setParams 0 Double.one Double.two Double.zero).min
        = false :=
  ⟨.construct 0 _ _ _ trivial, by decide,
   .setParams _ 0 _ _ _ .default trivial, by decide⟩

/-- C4, amended: for every descriptor reachable by the default constructor, the
four-argument constructor and `setParams`, where every call that takes arguments is
given `max >= min`, `max() >= min()` holds. -/
theorem max_ge_min_of_ordered_calls (d : ControlInputSaturation)
    (h : ControlInputSaturation.Reachable (fun mx mn => Double.ge mx mn = true) d) :
    Double.ge d.max d.min = true := by
  cases h with
  | default => decide
  | construct index mx mn w hok => exact hok
  | setParams d0 index mx mn w _ hok => exact hok

/-- C4, amended, at a concrete history: default construction, then
`setParams(3, 2.0, 1.0, 0.0)`. -/
theorem max_ge_min_of_ordered_calls_witness :
    ControlInputSaturation.Reachable (fun mx mn => Double.ge mx mn = true)
        (ControlInputSaturation.default.setParams 3 Double.two Double.one Double.zero) ∧
      Double.ge (ControlInputSaturation.default.setParams 3 Double.two Double.one Double.zero).max
        (ControlInputSaturation.default.setParams 3 Double.two Double.one Double.zero).min
        = true :=
  ⟨.setParams _ 3 _ _ _ .default (by decide),
   max_ge_min_of_ordered_calls _ (.setParams _ 3 _ _ _ .default (by decide))⟩

/-- C9: the default-constructed descriptor has `index() = 0`, `max() = 0`, `min() = 0`
and `weight() = 0` (so `max() >= min()` holds with `min = max`), and it equals the
descriptor the four-argument constructor builds from `(0, 0, 0, 0)`. -/
theorem default_accessors :
    ControlInputSaturation.default.index = 0 ∧
    ControlInputSaturation.default.max = Double.zero ∧
    ControlInputSaturation.default.min = Double.zero ∧
    ControlInputSaturation.default.weight = Double.zero ∧
    ControlInputSaturation.default.max = ControlInputSaturation.default.min ∧
    ControlInputSaturation.default =
      ControlInputSaturation.construct 0 Double.zero Double.zero Double.zero :=
  ⟨rfl, rfl, rfl, rfl, rfl, rfl⟩

/-! ## Theorems on the horizon length -/

/-- C5: with `T_f > 0` and `alpha > 0`, the horizon length is strictly increasing in
time: for all `t2 > t1 >= 0`, `horizon(t2) > horizon(t1)` (over the real numbers, with
the real exponential). -/
theorem horizon_strictly_increasing (T_f alpha t1 t2 : ℝ) (hT : 0 < T_f) (ha : 0 < alpha)
    (_h1 : 0 ≤ t1) (h12 : t1 < t2) :
    horizon Real.exp T_f alpha t2 > horizon Real.exp T_f alpha t1 := by
  unfold horizon
  have hexp : Real.exp (-alpha * t2) < Real.exp (-alpha * t1) :=
    Real.exp_lt_exp.mpr (by nlinarith)
  have hsub : 1 - Real.exp (-alpha * t1) < 1 - Real.exp (-alpha * t2) := by linarith
  exact mul_lt_mul_of_pos_left hsub hT

/-- C5 at `T_f = 2`, `alpha = 1`, `t1 = 0`, `t2 = 1`. -/
theorem horizon_strictly_increasing_witness :
    horizon Real.exp 2 1 1 > horizon Real.exp 2 1 0 :=
  horizon_strictly_increasing 2 1 0 1 (by norm_num) (by norm_num) (by norm_num) (by norm_num)

/-- C6: with `T_f > 0` and `alpha > 0`, the horizon length stays strictly below `T_f`
at every time `t` (over the real numbers, with the real exponential). -/
theorem horizon_lt_T_f (T_f alpha t : ℝ) (hT : 0 < T_f) (_ha : 0 < alpha) :
    horizon Real.exp T_f alpha t < T_f := by
  unfold horizon
  have hexp : 0 < Real.exp (-alpha * t) := Real.exp_pos _
  have hmul : 0 < T_f * Real.exp (-alpha * t) := mul_pos hT hexp
  linarith [mul_sub T_f 1 (Real.exp (-alpha * t)), mul_one T_f]

/-- C6 at `T_f = 2`, `alpha = 1`, `t = 1000`. -/
theorem horizon_lt_T_f_witness : horizon Real.exp 2 1 1000 < 2 :=
  horizon_lt_T_f 2 1 1000 (by norm_num) (by norm_num)

/-- C10: with `T_f > 0`, `alpha > 0` and `N >= 1`, `horizon(0) = 0`, and for every
`t >= 0` the horizon length and the step `horizon(t) / N` are non-negative, the step
being strictly positive when `t > 0` (over the real numbers, with the real
exponential). -/
theorem horizon_zero_and_step_nonneg (T_f alpha : ℝ) (N : Int) (hT : 0 < T_f)
    (ha : 0 < alpha) (hN : 1 ≤ N) :
    horizon Real.exp T_f alpha 0 = 0 ∧
    ∀ t : ℝ, 0 ≤ t →
      0 ≤ horizon Real.exp T_f alpha t ∧
      0 ≤ horizonStep Real.exp T_f alpha N t ∧
      (0 < t → 0 < horizonStep Real.exp T_f alpha N t) := by
  have hNpos : (0 : ℝ) < (N : ℝ) := by
    have : (0 : Int) < N := by omega
    exact_mod_cast this
  refine ⟨by simp [horizon], ?_⟩
  intro t ht
  have hle : Real.exp (-alpha * t) ≤ 1 := by
    rw [← Real.exp_zero]
    exact Real.exp_le_exp.mpr (by nlinarith)
  have h0 : 0 ≤ horizon Real.exp T_f alpha t := by
    unfold horizon
    exact mul_nonneg hT.le (by linarith)
  refine ⟨h0, div_nonneg h0 hNpos.le, ?_⟩
  intro htpos
  have hlt : Real.exp (-alpha * t) < 1 := by
    rw [← Real.exp_zero]
    exact Real.exp_lt_exp.mpr (by nlinarith)
  have hpos : 0 < horizon Real.exp T_f alpha t := by
    unfold horizon
    exact mul_pos hT (by linarith)
  exact div_pos hpos hNpos

/-- C10 at `T_f = 2`, `alpha = 1`, `N = 5`. -/
theorem horizon_zero_and_step_nonneg_witness :
    horizon Real.exp 2 1 0 = 0 ∧
    ∀ t : ℝ, 0 ≤ t →
      0 ≤ horizon Real.exp 2 1 t ∧
      0 ≤ horizonStep Real.exp 2 1 5 t ∧
      (0 < t → 0 < horizonStep Real.exp 2 1 5 t) :=
  horizon_zero_and_step_nonneg 2 1 5 (by norm_num) (by norm_num) (by norm_num)

/-! ## Theorems on the error-norm probe -/

/-- The accumulation loop of `squaredNorm`, started from `a`, adds the sum of the
squares of the entries to `a`. -/
theorem foldl_sq_eq {R : Type} [LinearOrderedField R] (vec : List R) (a : R) :
    vec.foldl (fun acc x => acc + x * x) a = a + (vec.map (fun x => x ^ 2)).sum := by
  induction vec generalizing a with
  | nil => simp
  | cons x xs ih =>
    simp only [List.foldl_cons, List.map_cons, List.sum_cons]
    rw [ih]
    ring

/-- A sum of squares is non-negative. -/
theorem sum_sq_nonneg {R : Type} [LinearOrderedField R] (vec : List R) :
    0 ≤ (vec.map (fun x => x ^ 2)).sum := by
  induction vec with
  | nil => simp
  | cons x xs ih =>
    simp only [List.map_cons, List.sum_cons]
    exact add_nonneg (sq_nonneg x) ih

/-- A sum of squares is zero exactly when every entry is zero. -/
theorem sum_sq_eq_zero_iff {R : Type} [LinearOrderedField R] (vec : List R) :
    (vec.map (fun x => x ^ 2)).sum = 0 ↔ ∀ x ∈ vec, x = 0 := by
  induction vec with
  | nil => simp
  | cons x xs ih =>
    simp only [List.map_cons, List.sum_cons, List.forall_mem_cons]
    constructor
    · intro h
      have hx : 0 ≤ x ^ 2 := sq_nonneg x
      have hs := sum_sq_nonneg xs
      have hx0 : x ^ 2 = 0 := le_antisymm (by linarith) hx
      have hs0 : (xs.map (fun x => x ^ 2)).sum = 0 := by linarith
      exact ⟨pow_eq_zero_iff (two_ne_zero) |>.mp hx0, ih.mp hs0⟩
    · rintro ⟨hx, hxs⟩
      rw [ih.mpr hxs, hx]
      simp

/-- The probe on the sample solver: the error vector `[3, 4]` gives `25` (the squared
norm, not the norm `5`), the trajectory stays `[3, 4]`, and the error vector is left in
the scratch buffer. -/
theorem getErrorNorm_sample :
    (getErrorNorm sampleCollaborators sampleSolver 0 [1]).1 = 25 ∧
    (getErrorNorm sampleCollaborators sampleSolver 0 [1]).2.control_input_and_constraints_seq_
      = [3, 4] ∧
    (getErrorNorm sampleCollaborators sampleSolver 0
      [1]).2.control_input_and_constraints_error_seq_ = [3, 4] := by
  refine ⟨?_, rfl, rfl⟩
  norm_num [getErrorNorm, squaredNorm, sampleCollaborators, sampleSolver]

/-- One tick on the sample solver with sampling period `1/10`: `F = [3, 4]`,
`b = -10 * F`, the update direction is `b`, so the trajectory becomes `[0, 0]` and the
emitted control input is `[0]`. -/
theorem controlUpdate_sample :
    (controlUpdate sampleCollaborators sampleSolver 0 (1 / 10) [1]).1 = [0] ∧
    (controlUpdate sampleCollaborators sampleSolver 0 (1 / 10)
      [1]).2.control_input_and_constraints_seq_ = [0, 0] := by
  norm_num [controlUpdate, optimalityError, sampleCollaborators, sampleSolver]

/-- C7: `getErrorNorm(time, state_vec)` leaves the stored solution trajectory
`control_input_and_constraints_seq_` (and the parameters) unchanged, and a following
`controlUpdate` returns the same control input and produces the same new trajectory as
it would have without the call; this holds whatever the arithmetic of the carrier. -/
theorem getErrorNorm_frame {R : Type} [Zero R] [Neg R] [Add R] [Sub R] [Mul R] [Div R]
    (c : Collaborators R) (s : MultipleShootingCGMRES R) (time : R) (state_vec : List R) :
    (getErrorNorm c s time state_vec).2.control_input_and_constraints_seq_ =
      s.control_input_and_constraints_seq_ ∧
    ∀ (t sampling_period : R) (x : List R),
      (controlUpdate c (getErrorNorm c s time state_vec).2 t sampling_period x).1 =
        (controlUpdate c s t sampling_period x).1 ∧
      (controlUpdate c (getErrorNorm c s time state_vec).2 t sampling_period
          x).2.control_input_and_constraints_seq_ =
        (controlUpdate c s t sampling_period x).2.control_input_and_constraints_seq_ :=
  ⟨rfl, fun _ _ _ => ⟨rfl, rfl⟩⟩

/-- C8: `getErrorNorm(time, state_vec)` returns the sum of the squares of the entries
of the optimality error under `state_vec` and the current solution (the squared norm,
no square root is taken); the result is non-negative and is zero exactly when every
entry of the error vector is zero (over an ordered field). -/
theorem getErrorNorm_eq_sum_sq {R : Type} [LinearOrderedField R] (c : Collaborators R)
    (s : MultipleShootingCGMRES R) (time : R) (state_vec : List R) :
    (getErrorNorm c s time state_vec).1 =
      ((optimalityError c time state_vec s.control_input_and_constraints_seq_).map
        (fun x => x ^ 2)).sum ∧
    0 ≤ (getErrorNorm c s time state_vec).1 ∧
    ((getErrorNorm c s time state_vec).1 = 0 ↔
      ∀ x ∈ optimalityError c time state_vec s.control_input_and_constraints_seq_, x = 0) := by
  have hval : (getErrorNorm c s time state_vec).1 =
      ((optimalityError c time state_vec s.control_input_and_constraints_seq_).map
        (fun x => x ^ 2)).sum := by
    simp only [getErrorNorm, optimalityError, squaredNorm]
    rw [foldl_sq_eq, zero_add]
  refine ⟨hval, ?_, ?_⟩
  · rw [hval]; exact sum_sq_nonneg _
  · rw [hval]; exact sum_sq_eq_zero_iff _

end AutoGenU
